import Mathlib

/-!
Shallow embedding of the cpdax exchange adapter (src/js/cpdax.js):
the error classifier `handleErrors`, the request builder / signer `sign`,
the market normalizer (the loop body of `fetchMarkets`), and the static
configuration returned by `describe`.  JavaScript `undefined` is modelled
with `Option`; JavaScript number values (which may be `NaN`) with `JsVal`;
machine floating point is modelled with `ℚ`, which is exact for the
concrete inputs used here.
-/

/-- The error taxonomy imported from the base errors module. -/
inductive ErrorKind where
  | notSupported
  | ddosProtection
  | authenticationError
  | permissionDenied
  | argumentsRequired
  | exchangeError
  | exchangeNotAvailable
  | insufficientFunds
  | invalidOrder
  | orderNotFound
  | invalidNonce
deriving DecidableEq, Repr

/-- A JavaScript numeric-or-undefined value: `undef` models `undefined`,
`nan` models the IEEE `NaN` produced by arithmetic on `undefined`. -/
inductive JsVal where
  | undef
  | nan
  | num (q : ℚ)
deriving DecidableEq, Repr

/-- JavaScript multiplication as it behaves on the values above:
`undefined` (and `NaN`) as an operand yields `NaN`. -/
def jsMul : JsVal → JsVal → JsVal
  | JsVal.num a, JsVal.num b => JsVal.num (a * b)
  | _, _ => JsVal.nan

/-- JavaScript string coercion of a possibly-undefined string (string
concatenation turns `undefined` into the text "undefined"). -/
def jsStr : Option String → String
  | some s => s
  | none => "undefined"

/-- The opening-brace character. -/
def braceOpen : Char := Char.ofNat 123

/-- The closing-brace character. -/
def braceClose : Char := Char.ofNat 125

/-- Whether `needle` occurs as a contiguous run inside `hay`
(JavaScript `hay.indexOf(needle) >= 0`). -/
def listInfixOf (needle : List Char) : List Char → Bool
  | [] => needle.isEmpty
  | c :: rest => needle.isPrefixOf (c :: rest) || listInfixOf needle rest

/-- JavaScript `hay.indexOf(needle) >= 0` on strings. -/
def strContains (hay needle : String) : Bool :=
  listInfixOf needle.data hay.data

/-- JavaScript `s.split(sep)` for a one-character separator, on char lists. -/
def charSplit (sep : Char) : List Char → List (List Char)
  | [] => [[]]
  | c :: rest =>
    if c = sep then [] :: charSplit sep rest
    else
      match charSplit sep rest with
      | [] => [[c]]
      | h :: t => (c :: h) :: t

/-- JavaScript `s.split(sep)` for a one-character separator. -/
def jsSplit (s : String) (sep : Char) : List String :=
  (charSplit sep s.data).map List.asString

/-- Decimal rendering of a natural number (JavaScript number-to-string
coercion), written with explicit fuel so it evaluates by kernel reduction. -/
def natToStringAux : Nat → Nat → List Char
  | 0, _ => []
  | fuel + 1, n =>
    if n < 10 then [Char.ofNat (48 + n)]
    else natToStringAux fuel (n / 10) ++ [Char.ofNat (48 + n % 10)]

/-- Decimal rendering of a natural number. -/
def natToString (n : Nat) : String :=
  (natToStringAux (n + 1) n).asString

/-- JavaScript `method.toUpperCase()`. -/
def jsToUpper (s : String) : String :=
  ⟨s.data.map Char.toUpper⟩

/-- Joining a list of strings with a separator. -/
def joinSep (sep : String) : List String → String
  | [] => ""
  | [x] => x
  | x :: y :: rest => x ++ sep ++ joinSep sep (y :: rest)

/-- JSON serialization of a string-valued JSON object
(`JSON.stringify` / the base class's `json`); failure payloads are JSON
objects with string fields, which is the shape the classifier consumes. -/
def jsonStringify (o : List (String × String)) : String :=
  "\x7b" ++ joinSep "," (o.map fun p => "\"" ++ p.1 ++ "\":\"" ++ p.2 ++ "\"") ++ "\x7d"

/-- The exact error table from `describe().exceptions.exact`, in source order. -/
def exceptionsExact : List (String × ErrorKind) := [
  ("temporarily_unavailable", ErrorKind.exchangeNotAvailable),
  ("Order could not be cancelled.", ErrorKind.orderNotFound),
  ("No such order found.", ErrorKind.orderNotFound),
  ("Order price must be positive.", ErrorKind.invalidOrder),
  ("Could not find a key matching the given X-BFX-APIKEY.", ErrorKind.authenticationError),
  ("Key price should be a decimal number, e.g. \"123.456\"", ErrorKind.invalidOrder),
  ("Key amount should be a decimal number, e.g. \"123.456\"", ErrorKind.invalidOrder),
  ("ERR_RATE_LIMIT", ErrorKind.ddosProtection),
  ("Ratelimit", ErrorKind.ddosProtection),
  ("Nonce is too small.", ErrorKind.invalidNonce),
  ("No summary found.", ErrorKind.exchangeError),
  ("Cannot evaluate your available balance, please try again", ErrorKind.exchangeNotAvailable)]

/-- The broad (substring) error table from `describe().exceptions.broad`,
in source declaration order. -/
def exceptionsBroad : List (String × ErrorKind) := [
  ("This API key does not have permission", ErrorKind.permissionDenied),
  ("Invalid order: not enough exchange balance for ", ErrorKind.insufficientFunds),
  ("Invalid order: minimum size for ", ErrorKind.invalidOrder),
  ("Invalid order", ErrorKind.invalidOrder),
  ("The available balance is only", ErrorKind.insufficientFunds)]

/-- JavaScript `message in exact` followed by `exact[message]`: exact-key
lookup in the exact table. -/
def lookupExact (message : String) : Option ErrorKind :=
  (exceptionsExact.find? fun p => p.1 == message).map Prod.snd

/-- Modelled from the spec: `findBroadlyMatchedKey` lives in the base
`Exchange` class, which is not part of this repository's sources; per the
spec, broad lookup returns the first table entry, in table order, whose key
is a substring of the message. -/
def findBroadlyMatchedKey (broad : List (String × ErrorKind)) (message : String) :
    Option (String × ErrorKind) :=
  broad.find? fun p => strContains message p.1

/-- Extraction of the error message from a parsed response object:
the `message` field if the key is present, else the `error` field. -/
def getMessage (response : List (String × String)) : Option String :=
  match response.find? fun p => p.1 == "message" with
  | some p => some p.2
  | none => (response.find? fun p => p.1 == "error").map Prod.snd

/-- Outcome of `handleErrors`: `pass` models returning `undefined`
(no error raised), `raise` models throwing a typed error carrying the
feedback string, `crash` models an exception the method itself does not
throw or catch (the `JSON.parse` failure propagating to the caller). -/
inductive HandleResult where
  | pass
  | raise (kind : ErrorKind) (feedback : String)
  | crash
deriving DecidableEq, Repr

/-- The classifier `handleErrors (code, reason, url, method, headers, body)`
of src/js/cpdax.js, over the status code and the raw body.  `JSON.parse` is a
platform primitive, so its result is supplied as `parsed`: `some response`
when the body parses to a (string-valued) JSON object, `none` when parsing
throws — which the source does not catch, hence `crash`. -/
def handleErrors (code : Nat) (body : String)
    (parsed : Option (List (String × String))) : HandleResult :=
  if body.length < 2 then HandleResult.pass
  else if 400 ≤ code then
    if body.data.head? == some braceOpen then
      match parsed with
      | none => HandleResult.crash
      | some response =>
        let feedback := "cpdax " ++ jsonStringify response
        match getMessage response with
        | none => HandleResult.raise ErrorKind.exchangeError feedback
        | some message =>
          match lookupExact message with
          | some kind => HandleResult.raise kind feedback
          | none =>
            match findBroadlyMatchedKey exceptionsBroad message with
            | some entry => HandleResult.raise entry.2 feedback
            | none => HandleResult.raise ErrorKind.exchangeError feedback
    else HandleResult.pass
  else HandleResult.pass

/-- The version string from `describe()`. -/
def version : String := "v1"

/-- The API base urls from `describe().urls.api`: both classes map to the
same host. -/
def urlsApi (api : String) : String :=
  if api == "public" then "https://www.cpdax.com" else "https://www.cpdax.com"

/-- Modelled from the spec: `extractParams` lives in the base `Exchange`
class, not in this repository's sources; it returns the names of the
placeholder segments written between braces in the path template. -/
def extractParamsAux : List Char → Option (List Char) → List String
  | [], _ => []
  | c :: rest, none =>
    if c = braceOpen then extractParamsAux rest (some [])
    else extractParamsAux rest none
  | c :: rest, some acc =>
    if c = braceClose then acc.reverse.asString :: extractParamsAux rest none
    else extractParamsAux rest (some (c :: acc))

/-- Placeholder names of a path template, in order of appearance. -/
def extractParams (path : String) : List String :=
  extractParamsAux path.data none

/-- Key lookup in a string-valued parameter object. -/
def lookupParam (params : List (String × String)) (name : String) : Option String :=
  (params.find? fun p => p.1 == name).map Prod.snd

/-- Modelled from the spec: `implodeParams` lives in the base `Exchange`
class, not in this repository's sources; it substitutes each brace-wrapped
placeholder with the parameter of that name, leaving a placeholder with no
matching parameter in place. -/
def implodeParamsAux (params : List (String × String)) :
    List Char → Option (List Char) → List Char
  | [], _ => []
  | c :: rest, none =>
    if c = braceOpen then implodeParamsAux params rest (some [])
    else c :: implodeParamsAux params rest none
  | c :: rest, some acc =>
    if c = braceClose then
      match lookupParam params acc.reverse.asString with
      | some v => v.data ++ implodeParamsAux params rest none
      | none => braceOpen :: (acc.reverse ++ braceClose :: implodeParamsAux params rest none)
    else implodeParamsAux params rest (some (c :: acc))

/-- Substitution of brace-wrapped placeholders in a path template. -/
def implodeParams (path : String) (params : List (String × String)) : String :=
  (implodeParamsAux params path.data none).asString

/-- Modelled from the spec: the base class's `omit` removes the given keys
from the parameter object, keeping the rest for the query string. -/
def omitParams (params : List (String × String)) (keys : List String) :
    List (String × String) :=
  params.filter fun p => !(keys.contains p.1)

/-- Modelled from the spec: the base class's `urlencode` serializes the
remaining parameters as `key=value&...`. -/
def urlencode (q : List (String × String)) : String :=
  joinSep "&" (q.map fun p => p.1 ++ "=" ++ p.2)

/-- The request descriptor returned by `sign`: header values are kept as
possibly-undefined strings (numbers are coerced to their decimal text). -/
structure SignedRequest where
  url : String
  method : String
  body : Option (List (String × String))
  headers : Option (List (String × Option String))
deriving DecidableEq, Repr

/-- Result of `sign`.  The `err` constructor exists so that a claimed
failure mode is statable; the source's `sign` itself never throws. -/
inductive SignResult where
  | ok (d : SignedRequest)
  | err (e : ErrorKind)
deriving DecidableEq, Repr

/-- The request builder and signer `sign (path, api, method, params,
headers, body)` of src/js/cpdax.js.  Instance context is passed explicitly:
`hmacf` is the base class's `hmac` keyed-hash primitive (payload and
possibly-undefined secret to digest), `apiKey`/`secret` the credentials,
`timestamp` the value of `this.nonce()`.  The `url` assigned before the
private block in the source is dead (overwritten unconditionally at the
end), so only the final value is modelled; the `query` object extended with
`request` inside the private block is likewise dead (its serialization is
commented out in the source).  The source guards the body-append with
`method == 'POST' && params`, and `params` is always a truthy object
(default `\x7b\x7d`), so the guard reduces to the method test. -/
def sign (hmacf : String → Option String → String)
    (apiKey secret : Option String) (timestamp : Nat)
    (path : String) (api : String) (method : String)
    (params : List (String × String))
    (headers : Option (List (String × Option String)))
    (body : Option (List (String × String))) : SignResult :=
  let request0 := "/" ++ implodeParams path params
  let request1 := "/" ++ version ++ request0
  let query := omitParams params (extractParams path)
  let request2 :=
    if (api == "public" || strContains path "/hist") && query.length != 0 then
      request1 ++ "?" ++ urlencode query
    else request1
  if api == "private" then
    let payload0 := jsStr apiKey ++ natToString timestamp ++ jsToUpper method ++ request2
    let payload := if method == "POST" then payload0 ++ jsonStringify params else payload0
    let body1 := if method == "POST" then some params else body
    let signature := hmacf payload secret
    SignResult.ok {
      url := urlsApi api ++ request2,
      method := method,
      body := body1,
      headers := some [
        ("CP-ACCESS-KEY", apiKey),
        ("CP-ACCESS-TIMESTAMP", some (natToString timestamp)),
        ("CP-ACCESS-DIGEST", some signature)] }
  else
    SignResult.ok {
      url := urlsApi api ++ request2,
      method := method,
      body := body,
      headers := headers }

/-- The names of the headers carried by a sign result. -/
def headerNames : SignResult → List String
  | SignResult.ok d => (d.headers.getD []).map Prod.fst
  | SignResult.err _ => []

/-- A raw venue market record as consumed by the `fetchMarkets` loop:
every field may be absent (`undefined`).  Numeric fields carry the venue's
numbers; `safeFloat` parsing of a present number is the identity. -/
structure RawMarket where
  product_id : Option String
  quote_increment : Option ℚ
  unit_size : Option ℚ
  min_size : Option ℚ
  max_size : Option ℚ
deriving DecidableEq, Repr

/-- Modelled from the spec: the base class's `safeFloat` yields the field's
numeric value, or `undefined` when the venue provides none. -/
def safeFloat : Option ℚ → JsVal
  | some q => JsVal.num q
  | none => JsVal.undef

/-- Modelled from the spec: `commonCurrencyCode` lives in the base
`Exchange` class, not in this repository's sources; canonicalization goes
through an externally configured alias table and is the identity when no
alias applies (it does not itself uppercase — the currency path uppercases
before calling it). -/
def commonCurrencyCode : Option String → Option String :=
  fun currency => currency

/-- The precision part of a normalized market: the venue's
`quote_increment` and `unit_size` passed through untouched. -/
structure MarketPrecision where
  price : Option ℚ
  amount : Option ℚ
deriving DecidableEq, Repr

/-- The limits part of a normalized market. -/
structure MarketLimits where
  amountMin : JsVal
  amountMax : JsVal
  priceMin : JsVal
  priceMax : JsVal
  costMin : JsVal
  costMax : JsVal
deriving DecidableEq, Repr

/-- A normalized market entry as pushed by the `fetchMarkets` loop. -/
structure Market where
  id : String
  symbol : String
  base : Option String
  quote : Option String
  baseId : Option String
  quoteId : Option String
  active : Bool
  precision : MarketPrecision
  limits : MarketLimits
deriving DecidableEq, Repr

/-- The loop body of `fetchMarkets` in src/js/cpdax.js, normalizing one raw
venue record.  `none` models the `TypeError` JavaScript raises when
`product_id` is absent and `undefined.split` is called; otherwise the source
raises nothing and always pushes an entry.  Indexing `split` results past
the end yields `undefined`, and string concatenation coerces an undefined
operand to the text "undefined". -/
def normalizeMarket (market : RawMarket) : Option Market :=
  match market.product_id with
  | none => none
  | some id =>
    let parts := jsSplit id '-'
    let baseId := parts.get? 0
    let quoteId := parts.get? 1
    let base := commonCurrencyCode baseId
    let quote := commonCurrencyCode quoteId
    let symbol := jsStr base ++ "/" ++ jsStr quote
    let amountMin := safeFloat market.min_size
    let priceMin := JsVal.num 2
    some {
      id := id,
      symbol := symbol,
      base := base,
      quote := quote,
      baseId := baseId,
      quoteId := quoteId,
      active := true,
      precision := { price := market.quote_increment, amount := market.unit_size },
      limits := {
        amountMin := amountMin,
        amountMax := safeFloat market.max_size,
        priceMin := priceMin,
        priceMax := JsVal.num 100,
        costMin := jsMul amountMin priceMin,
        costMax := JsVal.undef } }

/-- The static configuration literals returned by `describe()` that the
claims depend on. -/
structure DescribeConfig where
  id : String
  name : String
  version : String
  exact : List (String × ErrorKind)
  broad : List (String × ErrorKind)
  urlApiPublic : String
  urlApiPrivate : String
  apiKey : String
  secret : String
deriving DecidableEq, Repr

/-- The `describe()` configuration of src/js/cpdax.js (the fields the
claims are about, with the literal values of the source). -/
def describe : DescribeConfig := {
  id := "cpdax",
  name := "Cpdax",
  version := "v1",
  exact := exceptionsExact,
  broad := exceptionsBroad,
  urlApiPublic := "https://www.cpdax.com",
  urlApiPrivate := "https://www.cpdax.com",
  apiKey := "752d07a5cef56223ed1b0c558fbcfb444f012f4338d132eb46c8ca6c7981928a",
  secret := "MmIyNDRiYTctMDMzMy00ODkyLThlNTgtZTRhNmRlN2ZjZDZm" }

/-- A list search skips a prefix on which the predicate is false and stops
at the first element satisfying it. -/
theorem find_first_match {α : Type} (p : α → Bool) (pre post : List α) (x : α)
    (h1 : ∀ y ∈ pre, p y = false) (hx : p x = true) :
    (pre ++ x :: post).find? p = some x := by
  induction pre with
  | nil => simp [List.find?, hx]
  | cons a t ih =>
    have ha : p a = false := h1 a (by simp)
    simpa [List.find?, ha] using ih fun y hy => h1 y (by simp [hy])

/-- Unfolding of the classifier in the branch where the status is at least
400, the body is long enough, starts with a brace and parses. -/
theorem handleErrors_parsed (code : Nat) (body : String)
    (response : List (String × String))
    (hc : 400 ≤ code) (hl : 2 ≤ body.length)
    (hb : body.data.head? = some braceOpen) :
    handleErrors code body (some response) =
      (match getMessage response with
       | none => HandleResult.raise ErrorKind.exchangeError ("cpdax " ++ jsonStringify response)
       | some message =>
         match lookupExact message with
         | some kind => HandleResult.raise kind ("cpdax " ++ jsonStringify response)
         | none =>
           match findBroadlyMatchedKey exceptionsBroad message with
           | some entry => HandleResult.raise entry.2 ("cpdax " ++ jsonStringify response)
           | none => HandleResult.raise ErrorKind.exchangeError ("cpdax " ++ jsonStringify response)) := by
  unfold handleErrors
  rw [if_neg (by omega), if_pos hc]
  simp [hb]

/-- Claim C1: for an error message classified with status at least 400, the
exact table is consulted first and an exact match wins over any broad match;
when no exact match exists, the result is the ErrorKind of the first
broad-table key, in declaration order, that is a substring of the message. -/
theorem c1_exact_wins_then_first_broad (code : Nat) (body : String)
    (response : List (String × String)) (message : String)
    (hc : 400 ≤ code) (hl : 2 ≤ body.length)
    (hb : body.data.head? = some braceOpen)
    (hm : getMessage response = some message) :
    (∀ kind, lookupExact message = some kind →
      handleErrors code body (some response) =
        HandleResult.raise kind ("cpdax " ++ jsonStringify response)) ∧
    (lookupExact message = none →
      ∀ pre key kind post, exceptionsBroad = pre ++ (key, kind) :: post →
        (∀ p ∈ pre, strContains message p.1 = false) →
        strContains message key = true →
        handleErrors code body (some response) =
          HandleResult.raise kind ("cpdax " ++ jsonStringify response)) := by
  constructor
  · intro kind hk
    rw [handleErrors_parsed code body response hc hl hb, hm]
    dsimp only
    rw [hk]
  · intro hnone pre key kind post htab hpre hkey
    rw [handleErrors_parsed code body response hc hl hb, hm]
    dsimp only
    rw [hnone]
    have hfound : findBroadlyMatchedKey exceptionsBroad message = some (key, kind) := by
      unfold findBroadlyMatchedKey
      rw [htab]
      exact find_first_match _ pre post (key, kind) hpre hkey
    rw [hfound]

/-- Witness for C1: an exact match ("Nonce is too small.") resolves through
the exact table, and a message matched by no exact key resolves to the first
broad key in declaration order that is a substring (the third broad entry,
skipping the two earlier non-matching keys). -/
theorem c1_exact_wins_then_first_broad_witness :
    handleErrors 400 "\x7b\"message\":\"Nonce is too small.\"\x7d"
        (some [("message", "Nonce is too small.")]) =
      HandleResult.raise ErrorKind.invalidNonce
        ("cpdax " ++ jsonStringify [("message", "Nonce is too small.")]) ∧
    handleErrors 400 "\x7b\"message\":\"Invalid order: minimum size for BTC-KRW\"\x7d"
        (some [("message", "Invalid order: minimum size for BTC-KRW")]) =
      HandleResult.raise ErrorKind.invalidOrder
        ("cpdax " ++ jsonStringify [("message", "Invalid order: minimum size for BTC-KRW")]) :=
  ⟨(c1_exact_wins_then_first_broad 400 "\x7b\"message\":\"Nonce is too small.\"\x7d"
      [("message", "Nonce is too small.")] "Nonce is too small."
      (by decide) (by decide) (by decide) (by decide)).1
      ErrorKind.invalidNonce (by decide),
   (c1_exact_wins_then_first_broad 400
      "\x7b\"message\":\"Invalid order: minimum size for BTC-KRW\"\x7d"
      [("message", "Invalid order: minimum size for BTC-KRW")]
      "Invalid order: minimum size for BTC-KRW"
      (by decide) (by decide) (by decide) (by decide)).2
      (by decide)
      [("This API key does not have permission", ErrorKind.permissionDenied),
       ("Invalid order: not enough exchange balance for ", ErrorKind.insufficientFunds)]
      "Invalid order: minimum size for " ErrorKind.invalidOrder
      [("Invalid order", ErrorKind.invalidOrder),
       ("The available balance is only", ErrorKind.insufficientFunds)]
      (by decide) (by decide) (by decide)⟩

/-- Claim C2, counterexample: at status 400, a body of length 2 that does
not parse as a JSON object is not classified as an ExchangeError — a body
not starting with a brace is silently passed through, and a brace-led body
that fails to parse propagates the parse exception. -/
theorem c2_counterexample :
    handleErrors 400 "ab" none = HandleResult.pass ∧
    handleErrors 400 "\x7bzz" none = HandleResult.crash := by decide

/-- Claim C2 as amended: classification is not total over unparseable
bodies at status at least 400 — a body that does not start with a brace is
passed through with no error, a brace-led body whose parse fails propagates
the uncaught parse exception, and only a parsed object lacking both the
message and the error field yields the generic ExchangeError. -/
theorem c2_amended_not_total (code : Nat) (body : String)
    (parsed : Option (List (String × String)))
    (hc : 400 ≤ code) (hl : 2 ≤ body.length) :
    (body.data.head? ≠ some braceOpen → handleErrors code body parsed = HandleResult.pass) ∧
    (body.data.head? = some braceOpen → parsed = none →
      handleErrors code body parsed = HandleResult.crash) ∧
    (∀ response, body.data.head? = some braceOpen → parsed = some response →
      getMessage response = none →
      handleErrors code body parsed =
        HandleResult.raise ErrorKind.exchangeError ("cpdax " ++ jsonStringify response)) := by
  refine ⟨?_, ?_, ?_⟩
  · intro hne
    unfold handleErrors
    rw [if_neg (by omega), if_pos hc]
    have hfalse : (body.data.head? == some braceOpen) = false := by
      simpa using hne
    simp [hfalse]
  · intro hb hp
    subst hp
    unfold handleErrors
    rw [if_neg (by omega), if_pos hc]
    simp [hb]
  · intro response hb hp hmsg
    subst hp
    rw [handleErrors_parsed code body response hc hl hb, hmsg]

/-- Witness for C2 as amended: a non-brace body passes through, and a
brace-led body parsing to an object without a message or error field raises
the generic ExchangeError. -/
theorem c2_amended_not_total_witness :
    handleErrors 400 "notjson" none = HandleResult.pass ∧
    handleErrors 400 "\x7b\"status\":\"error\"\x7d" (some [("status", "error")]) =
      HandleResult.raise ErrorKind.exchangeError ("cpdax " ++ jsonStringify [("status", "error")]) :=
  ⟨(c2_amended_not_total 400 "notjson" none (by decide) (by decide)).1 (by decide),
   (c2_amended_not_total 400 "\x7b\"status\":\"error\"\x7d" (some [("status", "error")])
      (by decide) (by decide)).2.2 [("status", "error")] (by decide) rfl (by decide)⟩

/-- Claim C8: for a body of length at least 2, classification with a status
code below 400 returns no error, regardless of the body's shape or of the
parse outcome. -/
theorem c8_below_400_passes (code : Nat) (body : String)
    (parsed : Option (List (String × String)))
    (hc : code < 400) (hl : 2 ≤ body.length) :
    handleErrors code body parsed = HandleResult.pass := by
  unfold handleErrors
  rw [if_neg (by omega), if_neg (by omega)]

/-- Witness for C8: a 200 status with an arbitrary body passes. -/
theorem c8_below_400_passes_witness :
    handleErrors 200 "\x7b\"message\":\"Nonce is too small.\"\x7d"
      (some [("message", "Nonce is too small.")]) = HandleResult.pass :=
  c8_below_400_passes 200 "\x7b\"message\":\"Nonce is too small.\"\x7d"
    (some [("message", "Nonce is too small.")]) (by decide) (by decide)

/-- Claim C9: the describe() configuration returns fixed non-empty string
literals for the apiKey and secret fields, so every client constructed
without explicitly supplied credentials carries the same embedded key pair. -/
theorem c9_embedded_credentials :
    describe.apiKey = "752d07a5cef56223ed1b0c558fbcfb444f012f4338d132eb46c8ca6c7981928a" ∧
    describe.apiKey ≠ "" ∧
    describe.secret = "MmIyNDRiYTctMDMzMy00ODkyLThlNTgtZTRhNmRlN2ZjZDZm" ∧
    describe.secret ≠ "" := by decide

/-- Claim C10: every market entry produced by the fetchMarkets loop has
active = true, unconditionally, whatever the raw venue record contains. -/
theorem c10_active_always_true (raw : RawMarket) (mkt : Market)
    (h : normalizeMarket raw = some mkt) : mkt.active = true := by
  rcases hp : raw.product_id with _ | id
  · unfold normalizeMarket at h
    rw [hp] at h
    exact absurd h (by simp)
  · unfold normalizeMarket at h
    rw [hp] at h
    cases Option.some.inj h
    rfl

/-- Witness for C10: a concrete record normalizes to an entry with
active = true. -/
theorem c10_active_always_true_witness :
    Market.active {
      id := "ABC-DEF", symbol := "ABC" ++ "/" ++ "DEF", base := some "ABC",
      quote := some "DEF", baseId := some "ABC", quoteId := some "DEF",
      active := true,
      precision := { price := none, amount := none },
      limits := {
        amountMin := JsVal.undef, amountMax := JsVal.undef,
        priceMin := JsVal.num 2, priceMax := JsVal.num 100,
        costMin := JsVal.nan, costMax := JsVal.undef } } = true :=
  c10_active_always_true ⟨some "ABC-DEF", none, none, none, none⟩ _ rfl

/-- Claim C5, counterexample: a raw record whose product id has no
separator does not fail — normalization produces a market entry whose
quote side is undefined and whose symbol embeds the text "undefined". -/
theorem c5_counterexample :
    normalizeMarket ⟨some "INVALID", none, none, none, none⟩ = some {
      id := "INVALID", symbol := "INVALID/undefined", base := some "INVALID",
      quote := none, baseId := some "INVALID", quoteId := none, active := true,
      precision := { price := none, amount := none },
      limits := {
        amountMin := JsVal.undef, amountMax := JsVal.undef,
        priceMin := JsVal.num 2, priceMax := JsVal.num 100,
        costMin := JsVal.nan, costMax := JsVal.undef } } := by decide

/-- Claim C5 as amended: the fetchMarkets loop never validates the split —
a product id that yields a single segment produces a market entry (no
ExchangeError) whose quoteId is undefined and whose symbol is the id
followed by "/undefined" through JavaScript string coercion. -/
theorem c5_amended_malformed_id_yields_entry (raw : RawMarket) (id : String)
    (hp : raw.product_id = some id) (hs : jsSplit id '-' = [id]) :
    normalizeMarket raw = some {
      id := id, symbol := id ++ "/" ++ "undefined", base := some id,
      quote := none, baseId := some id, quoteId := none, active := true,
      precision := { price := raw.quote_increment, amount := raw.unit_size },
      limits := {
        amountMin := safeFloat raw.min_size, amountMax := safeFloat raw.max_size,
        priceMin := JsVal.num 2, priceMax := JsVal.num 100,
        costMin := jsMul (safeFloat raw.min_size) (JsVal.num 2),
        costMax := JsVal.undef } } := by
  unfold normalizeMarket
  rw [hp]
  simp [hs, commonCurrencyCode, jsStr]

/-- Witness for C5 as amended: the no-separator record produces an entry. -/
theorem c5_amended_malformed_id_yields_entry_witness :
    normalizeMarket ⟨some "INVALID", some 1, none, none, none⟩ = some {
      id := "INVALID", symbol := "INVALID" ++ "/" ++ "undefined",
      base := some "INVALID", quote := none, baseId := some "INVALID",
      quoteId := none, active := true,
      precision := { price := some 1, amount := none },
      limits := {
        amountMin := safeFloat none, amountMax := safeFloat none,
        priceMin := JsVal.num 2, priceMax := JsVal.num 100,
        costMin := jsMul (safeFloat none) (JsVal.num 2),
        costMax := JsVal.undef } } :=
  c5_amended_malformed_id_yields_entry ⟨some "INVALID", some 1, none, none, none⟩
    "INVALID" rfl (by decide)

/-- Claim C6, counterexample: when the venue omits min_size, the derived
cost minimum is the number NaN (JavaScript undefined-times-number), not
undefined — the undefined operand does not propagate as undefined. -/
theorem c6_counterexample :
    (normalizeMarket ⟨some "BTC-KRW", none, none, none, some 100⟩).map
      (fun m => m.limits.costMin) = some JsVal.nan ∧
    JsVal.nan ≠ JsVal.undef := by decide

/-- Claim C6 as amended: limits.cost.min equals amount.min times the
constant price minimum 2 when amount.min is defined; when amount.min is
undefined the product is NaN, not undefined (and in particular not zero). -/
theorem c6_amended_cost_derivation (raw : RawMarket) (mkt : Market)
    (h : normalizeMarket raw = some mkt) :
    (∀ q, raw.min_size = some q → mkt.limits.costMin = JsVal.num (q * 2)) ∧
    (raw.min_size = none → mkt.limits.costMin = JsVal.nan) := by
  rcases hp : raw.product_id with _ | id
  · unfold normalizeMarket at h
    rw [hp] at h
    exact absurd h (by simp)
  · unfold normalizeMarket at h
    rw [hp] at h
    cases Option.some.inj h
    constructor
    · intro q hq
      simp [hq, safeFloat, jsMul]
    · intro hq
      simp [hq, safeFloat, jsMul]

/-- Witness for C6 as amended: with min_size 3 the cost minimum is the
product 3 times 2; with min_size absent it is NaN. -/
theorem c6_amended_cost_derivation_witness :
    (Market.limits {
      id := "BTC-KRW", symbol := "BTC" ++ "/" ++ "KRW", base := some "BTC",
      quote := some "KRW", baseId := some "BTC", quoteId := some "KRW",
      active := true,
      precision := { price := none, amount := none },
      limits := {
        amountMin := JsVal.num 3, amountMax := JsVal.undef,
        priceMin := JsVal.num 2, priceMax := JsVal.num 100,
        costMin := JsVal.num (3 * 2), costMax := JsVal.undef } }).costMin
        = JsVal.num (3 * 2) ∧
    (Market.limits {
      id := "BTC-KRW", symbol := "BTC" ++ "/" ++ "KRW", base := some "BTC",
      quote := some "KRW", baseId := some "BTC", quoteId := some "KRW",
      active := true,
      precision := { price := none, amount := none },
      limits := {
        amountMin := JsVal.undef, amountMax := JsVal.undef,
        priceMin := JsVal.num 2, priceMax := JsVal.num 100,
        costMin := JsVal.nan, costMax := JsVal.undef } }).costMin = JsVal.nan :=
  ⟨(c6_amended_cost_derivation ⟨some "BTC-KRW", none, none, some 3, none⟩ _ rfl).1 3 rfl,
   (c6_amended_cost_derivation ⟨some "BTC-KRW", none, none, none, none⟩ _ rfl).2 rfl⟩

/-- Claim C3, counterexample: the authentication headers emitted for a
private request are CP-ACCESS-KEY, CP-ACCESS-TIMESTAMP and CP-ACCESS-DIGEST;
no header named ACCESS-KEY is emitted. -/
theorem c3_counterexample :
    headerNames (sign (fun p s => p ++ "|" ++ jsStr s) (some "k") (some "s") 1000
        "orders" "private" "POST" [] none none) =
      ["CP-ACCESS-KEY", "CP-ACCESS-TIMESTAMP", "CP-ACCESS-DIGEST"] ∧
    ¬ ("ACCESS-KEY" ∈ headerNames (sign (fun p s => p ++ "|" ++ jsStr s) (some "k")
        (some "s") 1000 "orders" "private" "POST" [] none none)) := by decide

/-- Claim C3 as amended: for every private request whose path template does
not contain "/hist", the signer computes payload = apiKey || timestamp ||
upper(method) || "/v1/" + resolvedPath, appends JSON.stringify of the params
object exactly when the method is POST (the params object is always truthy,
so this happens even when it is empty), signs the payload with the keyed
hash under the secret, and emits exactly the headers CP-ACCESS-KEY (apiKey),
CP-ACCESS-TIMESTAMP (nonce) and CP-ACCESS-DIGEST (signature). -/
theorem c3_amended_payload_and_headers (hmacf : String → Option String → String)
    (apiKey secret : Option String) (ts : Nat) (path method : String)
    (params : List (String × String))
    (headers0 : Option (List (String × Option String)))
    (body0 : Option (List (String × String)))
    (hh : strContains path "/hist" = false) :
    sign hmacf apiKey secret ts path "private" method params headers0 body0 =
      SignResult.ok {
        url := urlsApi "private" ++ ("/" ++ version ++ ("/" ++ implodeParams path params)),
        method := method,
        body := if method == "POST" then some params else body0,
        headers := some [
          ("CP-ACCESS-KEY", apiKey),
          ("CP-ACCESS-TIMESTAMP", some (natToString ts)),
          ("CP-ACCESS-DIGEST", some (hmacf
            (if method == "POST" then
              jsStr apiKey ++ natToString ts ++ jsToUpper method ++
                ("/" ++ version ++ ("/" ++ implodeParams path params)) ++ jsonStringify params
            else
              jsStr apiKey ++ natToString ts ++ jsToUpper method ++
                ("/" ++ version ++ ("/" ++ implodeParams path params))) secret))] } := by
  unfold sign
  simp [hh]

/-- Witness for C3 as amended: a concrete private POST request. -/
theorem c3_amended_payload_and_headers_witness :
    sign (fun p s => p ++ "|" ++ jsStr s) (some "k") (some "s") 1000
        "orders" "private" "POST" [] none none =
      SignResult.ok {
        url := "https://www.cpdax.com/v1/orders",
        method := "POST",
        body := some [],
        headers := some [
          ("CP-ACCESS-KEY", some "k"),
          ("CP-ACCESS-TIMESTAMP", some "1000"),
          ("CP-ACCESS-DIGEST", some "k1000POST/v1/orders\x7b\x7d|s")] } :=
  (c3_amended_payload_and_headers (fun p s => p ++ "|" ++ jsStr s) (some "k") (some "s")
    1000 "orders" "POST" [] none none (by decide)).trans (by decide)

/-- Claim C4, counterexample: a private request signed with an absent
secret does not fail with AuthenticationError — the signer completes, the
undefined credential coerces into the payload as the text "undefined", and
the keyed hash is invoked with the absent secret. -/
theorem c4_counterexample :
    sign (fun p s => p ++ "|" ++ jsStr s) (some "key") none 1000
        "balance" "private" "GET" [] none none =
      SignResult.ok {
        url := "https://www.cpdax.com/v1/balance",
        method := "GET",
        body := none,
        headers := some [
          ("CP-ACCESS-KEY", some "key"),
          ("CP-ACCESS-TIMESTAMP", some "1000"),
          ("CP-ACCESS-DIGEST", some "key1000GET/v1/balance|undefined")] } := by decide

/-- Claim C4 as amended: the signer performs no credential-presence check
and never raises any error; for every input, absent credentials included,
it returns a completed request descriptor. -/
theorem c4_amended_sign_never_fails (hmacf : String → Option String → String)
    (apiKey secret : Option String) (ts : Nat) (path api method : String)
    (params : List (String × String))
    (headers0 : Option (List (String × Option String)))
    (body0 : Option (List (String × String))) :
    ∀ e : ErrorKind,
      sign hmacf apiKey secret ts path api method params headers0 body0 ≠
        SignResult.err e := by
  intro e
  unfold sign
  split <;> simp

/-- Claim C7: params not consumed as path placeholders are serialized as a
URL query string when the API class is public, regardless of method; when
the API class is private (for the declared private paths, none of which
contains "/hist") they are never appended to the URL query, and the params
object is carried as the request body for POST. -/
theorem c7_query_routing (hmacf : String → Option String → String)
    (apiKey secret : Option String) (ts : Nat) (path method : String)
    (params : List (String × String))
    (headers0 : Option (List (String × Option String)))
    (body0 : Option (List (String × String)))
    (hh : strContains path "/hist" = false) :
    sign hmacf apiKey secret ts path "public" method params headers0 body0 =
      SignResult.ok {
        url := urlsApi "public" ++
          (if (omitParams params (extractParams path)).length != 0 then
            "/" ++ version ++ ("/" ++ implodeParams path params) ++ "?" ++
              urlencode (omitParams params (extractParams path))
          else "/" ++ version ++ ("/" ++ implodeParams path params)),
        method := method, body := body0, headers := headers0 } ∧
    sign hmacf apiKey secret ts path "private" method params headers0 body0 =
      SignResult.ok {
        url := urlsApi "private" ++ ("/" ++ version ++ ("/" ++ implodeParams path params)),
        method := method,
        body := if method == "POST" then some params else body0,
        headers := some [
          ("CP-ACCESS-KEY", apiKey),
          ("CP-ACCESS-TIMESTAMP", some (natToString ts)),
          ("CP-ACCESS-DIGEST", some (hmacf
            (if method == "POST" then
              jsStr apiKey ++ natToString ts ++ jsToUpper method ++
                ("/" ++ version ++ ("/" ++ implodeParams path params)) ++ jsonStringify params
            else
              jsStr apiKey ++ natToString ts ++ jsToUpper method ++
                ("/" ++ version ++ ("/" ++ implodeParams path params))) secret))] } := by
  constructor
  · unfold sign
    simp
  · unfold sign
    simp [hh]

/-- Witness for C7: with path template "orders/(symbol)" (braces in the
real template) and params carrying the placeholder plus one leftover key,
the public request serializes the leftover into the URL query for a GET,
while the private request leaves the URL query-free and a private POST
carries the params object as the body. -/
theorem c7_query_routing_witness :
    sign (fun p s => p ++ "|" ++ jsStr s) (some "k") (some "s") 7
        "orders/\x7bsymbol\x7d" "public" "GET"
        [("symbol", "BTC-KRW"), ("limit", "10")] none none =
      SignResult.ok {
        url := "https://www.cpdax.com/v1/orders/BTC-KRW?limit=10",
        method := "GET", body := none, headers := none } ∧
    sign (fun p s => p ++ "|" ++ jsStr s) (some "k") (some "s") 7
        "orders/\x7bsymbol\x7d" "private" "POST"
        [("symbol", "BTC-KRW"), ("limit", "10")] none none =
      SignResult.ok {
        url := "https://www.cpdax.com/v1/orders/BTC-KRW",
        method := "POST",
        body := some [("symbol", "BTC-KRW"), ("limit", "10")],
        headers := some [
          ("CP-ACCESS-KEY", some "k"),
          ("CP-ACCESS-TIMESTAMP", some "7"),
          ("CP-ACCESS-DIGEST",
            some "k7POST/v1/orders/BTC-KRW\x7b\"symbol\":\"BTC-KRW\",\"limit\":\"10\"\x7d|s")] } :=
  ⟨((c7_query_routing (fun p s => p ++ "|" ++ jsStr s) (some "k") (some "s") 7
      "orders/\x7bsymbol\x7d" "GET" [("symbol", "BTC-KRW"), ("limit", "10")]
      none none (by decide)).1).trans (by decide),
   ((c7_query_routing (fun p s => p ++ "|" ++ jsStr s) (some "k") (some "s") 7
      "orders/\x7bsymbol\x7d" "POST" [("symbol", "BTC-KRW"), ("limit", "10")]
      none none (by decide)).2).trans (by decide)⟩
